import Mathlib

/-!
Verification of the fed-batch bioreactor simulation core
(notebook `1_Dynamics/2_Time_domain_simulation/Fed batch bioreactor.ipynb`).

The notebook defines module-level parameter globals, an ODE right-hand side
`dxdt(t, x)` that reads those globals, and a scenario sweep
`for F in Fs: out = solve_ivp(dxdt, tspan, x0, t_eval=tsmooth); results.append(out)`.

Modelling conventions:
* Real-valued quantities are embedded as rationals (`ℚ`); the source's
  arithmetic is exact in these terms (no rounding is modelled).
* Python scalar division raises `ZeroDivisionError` on a zero divisor, so the
  derivative function, as a directly callable Python function on scalar
  state, is embedded as returning `Option`: `none` models the raised
  exception, `some` a normally returned list.
* The adaptive ODE solver (`scipy.integrate.solve_ivp`) is an external
  library; theorems about the sweep quantify over an arbitrary solver
  function `solve : Env → α` so that they hold for any solver behaviour.
  Inside a solver invocation the derivative receives numpy float64 arrays,
  whose zero divisions produce non-finite values with a warning instead of
  raising, and an integration failure is reported in the returned result
  object; a solver invocation therefore always returns, which is why the
  sweep theorems model the solver as a total function.
-/

namespace FedBatch

/-- Module-level globals of the notebook, in definition order:
cell 4 sets the kinetic parameters `mu_max`, `K_s`, `Y_xs`, `Y_px`;
cell 6 sets the initial scalars `X`, `S`, `P`, `V` and the state vector
`x0 = [X, S, P, V]`; cell 8 sets the scenario inputs `F` and `S_f`;
cells 12 and 13 set the time span `tspan` and evaluation grid `tsmooth`. -/
structure Env where
  mu_max : ℚ
  K_s : ℚ
  Y_xs : ℚ
  Y_px : ℚ
  X : ℚ
  S : ℚ
  P : ℚ
  V : ℚ
  x0 : List ℚ
  F : ℚ
  S_f : ℚ
  tspan : ℚ × ℚ
  tsmooth : List ℚ
deriving DecidableEq

/-- Monod specific growth rate, the expression `mu = mu_max * S / (K_s + S)`
computed inside `dxdt`. -/
def mu (mu_max K_s S : ℚ) : ℚ := mu_max * S / (K_s + S)

/-- The notebook's derivative function `dxdt(t, x)` (cell 9), reading the
globals `mu_max`, `K_s`, `Y_xs`, `Y_px`, `F`, `S_f` from `env`.  The local
unpacking `[X, S, P, V] = x` shadows the module scalars of the same names and
raises if `x` does not have exactly four components.  The function divides by
`K_s + S` (in `mu`), by `V` (in `dXdt`, `dPdt`, `dSdt`) and by `Y_xs`
(in `dSdt`); a zero divisor raises `ZeroDivisionError`, modelled as `none`.
On success it returns `[dXdt, dSdt, dPdt, dVdt]`. -/
def dxdt (env : Env) (t : ℚ) (x : List ℚ) : Option (List ℚ) :=
  match x with
  | [X, S, P, V] =>
    if env.K_s + S = 0 ∨ V = 0 ∨ env.Y_xs = 0 then none
    else
      let m := mu env.mu_max env.K_s S
      let rg := m * X
      let rp := env.Y_px * rg
      let dVdt := env.F
      let dXdt := 1 / V * (V * rg - dVdt * X)
      let dPdt := 1 / V * (V * rp - dVdt * P)
      let dSdt := 1 / V * (env.F * env.S_f - 1 / env.Y_xs * V * rg - dVdt * S)
      some [dXdt, dSdt, dPdt, dVdt]
  | _ => none

/-- The derivative vector prescribed by the specification's algorithm block,
written from the spec's formulas: `μ = μmax·S/(Ks+S)`, `r_g = μ·X`,
`r_p = Ypx·r_g`, `dV/dt = F`, `dX/dt = (V·r_g − F·X)/V`,
`dP/dt = (V·r_p − F·P)/V`, `dS/dt = (F·Sf − (1/Yxs)·V·r_g − F·S)/V`,
components ordered to match the state layout `[X, S, P, V]`.  The vector is
undefined (`none`) exactly where its own formulas divide by zero in a
subterm other than the `V` divisions (`μ` when `Ks + S = 0`, the `1/Yxs`
factor when `Yxs = 0`); the `V` divisions are covered by the claim's
hypothesis `V ≠ 0`. -/
def specModelDeriv (env : Env) (X S P V : ℚ) : Option (List ℚ) :=
  if env.K_s + S = 0 ∨ env.Y_xs = 0 then none
  else
    let m := mu env.mu_max env.K_s S
    let rg := m * X
    let rp := env.Y_px * rg
    some [(V * rg - env.F * X) / V,
          (env.F * env.S_f - (1 / env.Y_xs) * V * rg - env.F * S) / V,
          (V * rp - env.F * P) / V,
          env.F]

/-- Evaluation grid of cell 13: `numpy.linspace(0, 30)`, i.e. 50 evenly
spaced points from 0 to 30. -/
def tsmoothGrid : List ℚ := (List.range 50).map fun i => 30 * i / 49

/-- The notebook's global environment after cells 4, 6, 8, 12, 13:
`mu_max = 0.2`, `K_s = 1.0`, `Y_xs = 0.5`, `Y_px = 0.2`, `X = 0.05`,
`S = 10`, `P = 0`, `V = 1`, `x0 = [X, S, P, V]`, `F = 0.05`, `S_f = 10`,
`tspan = [0, 30]`, `tsmooth = linspace(0, 30)`. -/
def env0 : Env :=
  { mu_max := 1/5, K_s := 1, Y_xs := 1/2, Y_px := 1/5,
    X := 1/20, S := 10, P := 0, V := 1, x0 := [1/20, 10, 0, 1],
    F := 1/20, S_f := 10, tspan := (0, 30), tsmooth := tsmoothGrid }

/-- The sweep list of cell 14: `Fs = [0.05, 0.02]`. -/
def Fs : List ℚ := [1/20, 1/50]

/-- The scenario sweep of cells 15–16:
`results = []; for F in Fs: out = solve_ivp(dxdt, tspan, x0, t_eval=tsmooth); results.append(out)`.
The loop rebinds the module-level global `F` to each scenario's feed rate and
then invokes the solver, which reads the current globals; `solve` abstracts
the external `solve_ivp` call as a function of the global environment.
Returns the final global environment together with the `results` list. -/
def sweep {α : Type} (solve : Env → α) : Env → List ℚ → Env × List α
  | env, [] => (env, [])
  | env, f :: fs =>
    let env' := { env with F := f }
    let out := solve env'
    let rest := sweep solve env' fs
    (rest.1, out :: rest.2)

/-- Running one scenario alone: bind the global `F` to that scenario's feed
rate and invoke the solver once, with the same parameters, initial state,
time span and evaluation grid. -/
def runAlone {α : Type} (solve : Env → α) (env : Env) (f : ℚ) : α :=
  solve { env with F := f }

/-- The configuration of the spec's failure example: the notebook globals
with the initial state replaced by one whose volume component is `V0 = 0`. -/
def envV0 : Env := { env0 with x0 := [1/20, 10, 0, 0] }

/-- The notebook environment with feed rate `F = 0` (closed system). -/
def envF0 : Env := { env0 with F := 0 }

/-- An environment agreeing with `env0` on the six inputs read by `dxdt`
(`mu_max`, `K_s`, `Y_xs`, `Y_px`, `F`, `S_f`) but differing in every other
module global (the shadowed scalars `X`, `S`, `P`, `V`, the initial state
`x0`, the time span and the evaluation grid). -/
def envAlt : Env :=
  { env0 with X := 99, S := 98, P := 97, V := 96, x0 := [],
              tspan := (5, 6), tsmooth := [7] }

/-- The exactly integrated volume trajectory `V(t) = V0 + F·t`. -/
def Vlin (V0 F t : ℚ) : ℚ := V0 + F * t

/-- The `results` collected by the sweep loop are exactly one solver output
per scenario, in scenario-list order, each produced from the shared globals
with `F` bound to that scenario's feed rate. -/
lemma sweep_snd_eq_map {α : Type} (solve : Env → α) (env : Env) (fs : List ℚ) :
    (sweep solve env fs).2 = fs.map (fun f => solve { env with F := f }) := by
  induction fs generalizing env with
  | nil => rfl
  | cons f fs ih =>
    simp only [sweep, List.map, List.cons.injEq, true_and]
    rw [ih { env with F := f }]

/-- C1: for every state `(X, S, P, V)` with `V ≠ 0`, every time `t`, fixed
parameters `μmax, Ks, Yxs, Ypx` and scenario inputs `F, Sf`, the derivative
function `dxdt` returns exactly the vector prescribed by the specification's
formulas `μ = μmax·S/(Ks+S)`, `r_g = μ·X`, `r_p = Ypx·r_g`, `dV/dt = F`,
`dX/dt = (V·r_g − F·X)/V`, `dP/dt = (V·r_p − F·P)/V`,
`dS/dt = (F·Sf − (1/Yxs)·V·r_g − F·S)/V`, with components ordered to match
the state layout `[X, S, P, V]`; in particular the dilution term
`−F·(concentration)/V` is present in each concentration derivative. -/
theorem dxdt_matches_spec_formulas (env : Env) (t X S P V : ℚ) (hV : V ≠ 0) :
    dxdt env t [X, S, P, V] = specModelDeriv env X S P V := by
  simp only [dxdt, specModelDeriv]
  by_cases h1 : env.K_s + S = 0
  · simp [h1]
  · by_cases h2 : env.Y_xs = 0
    · simp [h1, h2]
    · rw [if_neg (by tauto), if_neg (by tauto)]
      simp only [Option.some.injEq, List.cons.injEq, and_true]
      refine ⟨by ring, by ring, by ring⟩

/-- Witness for C1 at the notebook configuration and initial state. -/
theorem dxdt_matches_spec_formulas_witness :
    ((1 : ℚ) ≠ 0) ∧
      dxdt env0 0 [1/20, 10, 0, 1] = specModelDeriv env0 (1/20) 10 0 1 :=
  ⟨by norm_num, dxdt_matches_spec_formulas env0 0 (1/20) 10 0 1 (by norm_num)⟩

/-- C2: sweeping the scenarios `{F=0.05, Sf=10}` and `{F=0.02, Sf=10}`
together yields, for each scenario, the same solver result as running that
scenario alone from the same parameters, initial state, time span and
evaluation grid, for every solver behaviour; and sweeping them in the
opposite order changes no per-scenario result. -/
theorem sweep_scenario_independent {α : Type} (solve : Env → α) :
    (sweep solve env0 Fs).2 = [runAlone solve env0 (1/20), runAlone solve env0 (1/50)] ∧
    (sweep solve env0 [1/50, 1/20]).2 = [runAlone solve env0 (1/50), runAlone solve env0 (1/20)] := by
  constructor <;> simp [sweep, runAlone, Fs, env0]

/-- C3: the derivative evaluation is a pure function of exactly the declared
inputs: any two global environments that agree on `mu_max`, `K_s`, `Y_xs`,
`Y_px`, `F` and `S_f` produce identical results on the same state, at any
two times, regardless of every other module global (the shadowed scalars
`X`, `S`, `P`, `V`, the initial state `x0`, the time span and the grid). -/
theorem dxdt_pure_in_declared_inputs (e1 e2 : Env) (t1 t2 : ℚ) (x : List ℚ)
    (h1 : e1.mu_max = e2.mu_max) (h2 : e1.K_s = e2.K_s) (h3 : e1.Y_xs = e2.Y_xs)
    (h4 : e1.Y_px = e2.Y_px) (h5 : e1.F = e2.F) (h6 : e1.S_f = e2.S_f) :
    dxdt e1 t1 x = dxdt e2 t2 x := by
  rcases x with _ | ⟨a, _ | ⟨b, _ | ⟨c, _ | ⟨d, _ | ⟨e, xs⟩⟩⟩⟩⟩ <;>
    simp [dxdt, mu, h1, h2, h3, h4, h5, h6]

/-- Witness for C3: `env0` and `envAlt` differ in `X`, `S`, `P`, `V`, `x0`,
`tspan` and `tsmooth`, and the evaluation times differ, yet `dxdt` agrees. -/
theorem dxdt_pure_in_declared_inputs_witness :
    (env0.mu_max = envAlt.mu_max ∧ env0.K_s = envAlt.K_s ∧ env0.Y_xs = envAlt.Y_xs ∧
     env0.Y_px = envAlt.Y_px ∧ env0.F = envAlt.F ∧ env0.S_f = envAlt.S_f) ∧
      dxdt env0 0 [1/20, 10, 0, 1] = dxdt envAlt 30 [1/20, 10, 0, 1] :=
  ⟨⟨rfl, rfl, rfl, rfl, rfl, rfl⟩,
   dxdt_pure_in_declared_inputs env0 envAlt 0 30 [1/20, 10, 0, 1] rfl rfl rfl rfl rfl rfl⟩

/-- C4 counterexample: with the initial state's volume component `V0 = 0`,
no `ConfigurationError` is raised and the sweep is not stopped: the loop
still invokes the solver once per scenario and collects its outputs.  (The
division by `V = 0` only surfaces later, inside a solver invocation, when
`dxdt` is evaluated.) -/
theorem sweep_no_config_validation_cex :
    (envV0.x0.get? 3 = some 0) ∧
      (sweep (fun e => e.F) envV0 [1/20, 1/50]).2 = [1/20, 1/50] := by
  constructor
  · norm_num [envV0, env0]
  · norm_num [sweep, envV0, env0]

/-- C4 amended: the code performs no configuration validation at all — for
every configuration (including non-positive parameters, `V0 = 0`, or an
empty scenario list) the sweep proceeds directly and invokes the solver
exactly once per scenario, in order. -/
theorem sweep_unvalidated_runs_all_scenarios {α : Type} (solve : Env → α)
    (env : Env) (fs : List ℚ) :
    (sweep solve env fs).2 = fs.map (fun f => solve { env with F := f }) :=
  sweep_snd_eq_map solve env fs

/-- C5: a sweep over a list of `N` scenario inputs returns exactly `N` run
results, one per requested scenario, in scenario-list order: for every
solver behaviour (the result type `α` stands for the solver's returned,
status-tagged result object, which the loop appends unconditionally), the
collected list has length `N` and its `i`-th entry is exactly the solver's
output for the `i`-th scenario.  A solver invocation always returns: inside
`solve_ivp` the derivative receives numpy arrays, so its zero divisions
yield non-finite values with a warning rather than an exception, and an
unsuccessful integration is reported in the returned object — hence no
scenario's result is dropped even when its integration fails. -/
theorem sweep_one_result_per_scenario {α : Type} (solve : Env → α)
    (env : Env) (fs : List ℚ) :
    (sweep solve env fs).2.length = fs.length ∧
    ∀ (i : ℕ) (h : i < fs.length),
      (sweep solve env fs).2.get? i = some (solve { env with F := fs.get ⟨i, h⟩ }) := by
  constructor
  · rw [sweep_snd_eq_map]
    exact fs.length_map _
  · intro i h
    rw [sweep_snd_eq_map, List.get?_map, List.get?_eq_get h]
    rfl

/-- Witness for C5 at the notebook sweep `Fs = [0.05, 0.02]`: two results,
and the entry at index 1 is the solver output for the scenario `F = 0.02`. -/
theorem sweep_one_result_per_scenario_witness :
    ((1 : ℕ) < Fs.length) ∧
    ((sweep (fun e => e.F) env0 Fs).2.length = Fs.length ∧
     (sweep (fun e => e.F) env0 Fs).2.get? 1 = some (1/50 : ℚ)) := by
  have h := sweep_one_result_per_scenario (fun e => e.F) env0 Fs
  have h1 : (1 : ℕ) < Fs.length := by norm_num [Fs]
  refine ⟨h1, h.1, ?_⟩
  have h2 := h.2 1 h1
  simpa [Fs] using h2

/-- C6: for `F = 0` (closed system), for every state with `V > 0` on which
the derivative evaluation returns, the returned vector has `dV/dt = 0` and
`dS/dt = −(1/Yxs)·r_g` exactly, with no dilution term (`r_g = μ·X`). -/
theorem dxdt_closed_system_no_dilution (env : Env) (t X S P V : ℚ) (d : List ℚ)
    (hF : env.F = 0) (hV : 0 < V) (h : dxdt env t [X, S, P, V] = some d) :
    d.get? 3 = some 0 ∧
      d.get? 1 = some (-(1 / env.Y_xs) * (mu env.mu_max env.K_s S * X)) := by
  have hV' : V ≠ 0 := ne_of_gt hV
  simp only [dxdt] at h
  split at h
  · exact absurd h (by simp)
  · rename_i hc
    push_neg at hc
    have hY : env.Y_xs ≠ 0 := hc.2.2
    rw [← Option.some.inj h]
    constructor
    · simp [hF]
    · simp only [List.get?]
      rw [Option.some.injEq, hF]
      field_simp
      ring

/-- Witness for C6 at the notebook configuration with `F = 0`. -/
theorem dxdt_closed_system_no_dilution_witness :
    (envF0.F = 0 ∧ (0 : ℚ) < 1 ∧
       dxdt envF0 0 [1/20, 10, 0, 1] = some [1/110, -1/55, 1/550, 0]) ∧
      (([1/110, -1/55, 1/550, 0] : List ℚ).get? 3 = some 0 ∧
       ([1/110, -1/55, 1/550, 0] : List ℚ).get? 1 =
         some (-(1 / envF0.Y_xs) * (mu envF0.mu_max envF0.K_s 10 * (1/20)))) := by
  have hd : dxdt envF0 0 [1/20, 10, 0, 1] = some [1/110, -1/55, 1/550, 0] := by
    norm_num [dxdt, mu, envF0, env0]
  exact ⟨⟨rfl, by norm_num, hd⟩,
    dxdt_closed_system_no_dilution envF0 0 (1/20) 10 0 1 _ rfl (by norm_num) hd⟩

/-- C7: for every `μmax > 0` and `Ks > 0`, the specific growth rate
`μ(S) = μmax·S/(Ks+S)` computed by the model is non-decreasing on `S ≥ 0`,
bounded above by `μmax`, and satisfies `μ(0) = 0`. -/
theorem mu_monod_properties (mu_max K_s : ℚ) (hm : 0 < mu_max) (hk : 0 < K_s) :
    (∀ S1 S2 : ℚ, 0 ≤ S1 → S1 ≤ S2 → mu mu_max K_s S1 ≤ mu mu_max K_s S2) ∧
    (∀ S : ℚ, 0 ≤ S → mu mu_max K_s S ≤ mu_max) ∧
    mu mu_max K_s 0 = 0 := by
  refine ⟨?_, ?_, ?_⟩
  · intro S1 S2 hS1 h12
    have d1 : 0 < K_s + S1 := by linarith
    have d2 : 0 < K_s + S2 := by linarith
    rw [mu, mu, div_le_div_iff₀ d1 d2]
    nlinarith [mul_pos hm hk, sub_nonneg.mpr h12]
  · intro S hS
    have d : 0 < K_s + S := by linarith
    rw [mu, div_le_iff₀ d]
    nlinarith [mul_pos hm hk]
  · simp [mu]

/-- Witness for C7 at the notebook parameters `μmax = 0.2`, `Ks = 1`. -/
theorem mu_monod_properties_witness :
    ((0 : ℚ) < 1/5 ∧ (0 : ℚ) < 1) ∧
      (mu (1/5) 1 3 ≤ mu (1/5) 1 10 ∧ mu (1/5) 1 10 ≤ 1/5 ∧ mu (1/5) 1 0 = 0) := by
  have h := mu_monod_properties (1/5) 1 (by norm_num) (by norm_num)
  exact ⟨⟨by norm_num, by norm_num⟩,
    h.1 3 10 (by norm_num) (by norm_num), h.2.1 10 (by norm_num), h.2.2⟩

/-- C8: whenever the derivative evaluation returns a vector, its volume
component equals the scenario's constant feed rate `F`, independently of the
state; consequently the exactly integrated volume `V(t) = V0 + F·t`
(`Vlin`) starts at `V0` and changes by exactly `F·(t2 − t1)` over any
sub-interval of the horizon. -/
theorem volume_derivative_is_feed_rate (env : Env) :
    (∀ (t : ℚ) (x d : List ℚ), dxdt env t x = some d → d.get? 3 = some env.F) ∧
    (∀ V0 : ℚ, Vlin V0 env.F 0 = V0) ∧
    (∀ V0 t1 t2 : ℚ, Vlin V0 env.F t2 - Vlin V0 env.F t1 = env.F * (t2 - t1)) := by
  refine ⟨?_, ?_, ?_⟩
  · intro t x d h
    rcases x with _ | ⟨a, _ | ⟨b, _ | ⟨c, _ | ⟨e, _ | ⟨f, xs⟩⟩⟩⟩⟩ <;>
      simp only [dxdt] at h
    · exact absurd h (by simp)
    · exact absurd h (by simp)
    · exact absurd h (by simp)
    · exact absurd h (by simp)
    · split at h
      · exact absurd h (by simp)
      · rw [← Option.some.inj h]
        simp
    · exact absurd h (by simp)
  · intro V0; simp [Vlin]
  · intro V0 t1 t2; simp only [Vlin]; ring

/-- Witness for C8 at the notebook configuration and initial state. -/
theorem volume_derivative_is_feed_rate_witness :
    (dxdt env0 0 [1/20, 10, 0, 1] = some [29/4400, -1/55, 1/550, 1/20]) ∧
      ([29/4400, -1/55, 1/550, 1/20] : List ℚ).get? 3 = some env0.F := by
  have h : dxdt env0 0 [1/20, 10, 0, 1] = some [29/4400, -1/55, 1/550, 1/20] := by
    norm_num [dxdt, mu, env0]
  exact ⟨h, (volume_derivative_is_feed_rate env0).1 0 _ _ h⟩

/-- C9: executing the sweep rebinds the module-level global `F` to each
scenario's feed rate in turn and leaves `F = 0.02` (the last scenario's
value) afterwards, for every solver behaviour; `S_f` and the kinetic
parameter globals are never rebound; and evaluating `dxdt` after the sweep
uses the last scenario's `F`, giving a different derivative at the notebook
initial state than the originally configured `F = 0.05`. -/
theorem sweep_rebinds_global_F {α : Type} (solve : Env → α) :
    (sweep solve env0 Fs).1 = { env0 with F := 1/50 } ∧
    (sweep solve env0 Fs).1.F = 1/50 ∧
    (sweep solve env0 Fs).1.S_f = env0.S_f ∧
    (sweep solve env0 Fs).1.mu_max = env0.mu_max ∧
    (sweep solve env0 Fs).1.K_s = env0.K_s ∧
    (sweep solve env0 Fs).1.Y_xs = env0.Y_xs ∧
    (sweep solve env0 Fs).1.Y_px = env0.Y_px ∧
    dxdt (sweep solve env0 Fs).1 0 env0.x0 ≠ dxdt env0 0 env0.x0 := by
  have hfin : (sweep solve env0 Fs).1 = { env0 with F := 1/50 } := by
    simp [sweep, Fs]
  refine ⟨hfin, by rw [hfin], by rw [hfin], by rw [hfin], by rw [hfin],
    by rw [hfin], by rw [hfin], ?_⟩
  rw [hfin]
  norm_num [dxdt, mu, env0]

/-- C10 counterexample: `dxdt` does not return a derivative vector for every
state with nonzero volume: at the notebook parameters and the state
`[X, S, P, V] = [0.05, −1, 0, 1]` (so `V = 1 ≠ 0` but `Ks + S = 0`), the
evaluation raises a division-by-zero error in the Monod quotient. -/
theorem dxdt_monod_divisor_cex :
    dxdt env0 0 [1/20, -1, 0, 1] = none ∧ (1 : ℚ) ≠ 0 := by
  constructor
  · norm_num [dxdt, mu, env0]
  · norm_num

/-- C10 amended: `dxdt` divides by the state's `V` component without any
guard: every state with `V = 0` raises a division-by-zero error instead of
returning a derivative, and every state with `V ≠ 0` returns a
four-component derivative vector provided its other divisors are nonzero
(`Ks + S ≠ 0` in the Monod quotient and `Yxs ≠ 0` in the substrate term);
a state with `V ≠ 0` but `S = −Ks` also raises. -/
theorem dxdt_error_behavior (env : Env) (t X S P V : ℚ) :
    (V = 0 → dxdt env t [X, S, P, V] = none) ∧
    (V ≠ 0 → env.K_s + S ≠ 0 → env.Y_xs ≠ 0 →
      ∃ d, dxdt env t [X, S, P, V] = some d ∧ d.length = 4) := by
  constructor
  · intro h
    simp [dxdt, h]
  · intro hV h1 h2
    simp only [dxdt]
    rw [if_neg (by tauto)]
    exact ⟨_, rfl, rfl⟩

/-- Witness for C10's amended statement at the notebook configuration. -/
theorem dxdt_error_behavior_witness :
    (dxdt env0 0 [3, 4, 5, 0] = none) ∧
      ∃ d, dxdt env0 0 [3, 4, 5, 1] = some d ∧ d.length = 4 :=
  ⟨(dxdt_error_behavior env0 0 3 4 5 0).1 rfl,
   (dxdt_error_behavior env0 0 3 4 5 1).2 (by norm_num)
     (by norm_num [env0]) (by norm_num [env0])⟩

end FedBatch
